import Mathlib

/-!
Shallow embedding of the bounded thread-safe queue `Cola<T>`
(src/include/cola.h, src/include/cola.ipp) and of the consumer
`Worker<T>` (src/include/worker.h, src/include/worker.ipp).

The embedding is sequential: each public method of `Cola<T>` runs under the
queue mutex in the C++ code, so an execution is a sequence of atomic method
calls on the queue state. The condition-variable wait inside `pop` is
embedded by evaluating its predicate once on the current state: in a
sequential execution no other thread can push or shut down while `pop`
waits, so a wait whose predicate is initially false ends in a timeout.
-/

/-- Result of `Cola<T>::pop` (enum class PopResult in cola.h):
OK carries the value written to the out parameter. -/
inductive PopResult (T : Type) where
  | OK (out : T)
  | TIMEOUT
  | SHUTDOWN
deriving DecidableEq

/-- State of a `Cola<T>` object: the FIFO `buffer` (std::deque<T>), the
fixed `max_size`, and the `shutting_down` flag (cola.h private attributes).
The mutex and condition variable carry no sequential state. -/
structure Cola (T : Type) where
  buffer : List T
  max_size : Nat
  shutting_down : Bool
deriving DecidableEq

/-- Embedding of the constructor `Cola<T>::Cola(size_t max_size)`
(cola.ipp): empty buffer, given capacity, `shutting_down` false. -/
def Cola.new (T : Type) (max_size : Nat) : Cola T :=
  { buffer := [], max_size := max_size, shutting_down := false }

/-- Embedding of `Cola<T>::shutdown()` (cola.ipp): sets `shutting_down`
to true (the notify_all call moves no sequential state). -/
def Cola.shutdown {T : Type} (c : Cola T) : Cola T :=
  { c with shutting_down := true }

/-- Embedding of `Cola<T>::push(T dato)` (cola.ipp): if the buffer length
has reached `max_size`, pop_front removes the eldest element; then the new
element is appended at the back. -/
def Cola.push {T : Type} (c : Cola T) (dato : T) : Cola T :=
  let buffer1 := if c.buffer.length ≥ c.max_size then c.buffer.tail else c.buffer
  { c with buffer := buffer1 ++ [dato] }

/-- Embedding of `Cola<T>::pop(T& out, std::chrono::seconds timeout)`
(cola.ipp). The wait predicate is `shutting_down || !buffer.empty()`; if it
fails the wait can only time out in a sequential execution, so the result
is TIMEOUT. Otherwise the code first tests `shutting_down` (returning
SHUTDOWN with the buffer untouched), and only then removes the front
element and returns OK. The `timeout` argument is kept from the C++
signature; it cannot influence the sequential result. The empty-buffer
case inside the final branch is unreachable there (the wait predicate held
and `shutting_down` is false). -/
def Cola.pop {T : Type} (c : Cola T) (timeout : Nat) : PopResult T × Cola T :=
  if !(c.shutting_down || !c.buffer.isEmpty) then (PopResult.TIMEOUT, c)
  else if c.shutting_down then (PopResult.SHUTDOWN, c)
  else
    match c.buffer with
    | [] => (PopResult.TIMEOUT, c)
    | out :: rest => (PopResult.OK out, { c with buffer := rest })

/-- Embedding of `Cola<T>::get_size()` (cola.ipp): buffer size. -/
def Cola.get_size {T : Type} (c : Cola T) : Nat :=
  c.buffer.length

/-- Embedding of `Cola<T>::is_empty()` (cola.ipp): whether the buffer is
empty. -/
def Cola.is_empty {T : Type} (c : Cola T) : Bool :=
  c.buffer.isEmpty

/-- One atomic call on the queue: a push with a value, a pop with a
timeout, or a shutdown. -/
inductive Op (T : Type) where
  | push (dato : T)
  | pop (timeout : Nat)
  | shutdown

/-- The state after one queue call (the pop result itself is dropped). -/
def Cola.step {T : Type} (c : Cola T) : Op T → Cola T
  | Op.push dato => c.push dato
  | Op.pop timeout => (c.pop timeout).2
  | Op.shutdown => c.shutdown

/-- The state after a finite sequence of queue calls. -/
def Cola.run {T : Type} (c : Cola T) (ops : List (Op T)) : Cola T :=
  ops.foldl Cola.step c

/-- Pushing a list of values, in order, with no other call in between. -/
def Cola.pushAll {T : Type} (c : Cola T) (xs : List T) : Cola T :=
  xs.foldl Cola.push c

/-- Popping n times in a row with the given timeout, collecting the
results in call order. -/
def Cola.popN {T : Type} (c : Cola T) (timeout : Nat) : Nat → List (PopResult T) × Cola T
  | 0 => ([], c)
  | Nat.succ n =>
    let p := c.pop timeout
    let r := Cola.popN p.2 timeout n
    (p.1 :: r.1, r.2)

/-- Fixed wait used by the worker for every `pop` call
(`Worker<T>::DEFAULT_WAIT_TIMEOUT`, declared in worker.h as a
`std::chrono::seconds` constant of 5 seconds). -/
def DEFAULT_WAIT_TIMEOUT : Nat := 5

/-- An invocation of one of the four `IWorkerAction<T>` methods, with the
arguments the worker passes: `trabajo(name, dato)` on OK,
`colaVacia(name, timeout)` on TIMEOUT, `colaApagada(name)` on SHUTDOWN,
and `onStop(name)` from the worker destructor. -/
inductive WEvent (T : Type) where
  | trabajo (name : String) (dato : T)
  | colaVacia (name : String) (timeout : Nat)
  | colaApagada (name : String)
  | onStop (name : String)
deriving DecidableEq

/-- Embedding of the consume loop `Worker<T>::run()` (worker.ipp): while
the running flag holds, pop with the fixed timeout and dispatch on the
result: OK invokes trabajo and iterates, TIMEOUT invokes colaVacia and
iterates, SHUTDOWN invokes colaApagada and returns from the loop. `fuel`
is the number of iterations for which the running flag still reads true;
the SHUTDOWN case exits regardless of remaining fuel, mirroring the
`return` in the switch. Returns the action invocations in order together
with the final queue state. -/
def Worker.run {T : Type} (name : String) : Nat → Cola T → List (WEvent T) × Cola T
  | 0, c => ([], c)
  | Nat.succ fuel, c =>
    match c.pop DEFAULT_WAIT_TIMEOUT with
    | (PopResult.OK dato, c1) =>
      let r := Worker.run name fuel c1
      (WEvent.trabajo name dato :: r.1, r.2)
    | (PopResult.TIMEOUT, c1) =>
      let r := Worker.run name fuel c1
      (WEvent.colaVacia name DEFAULT_WAIT_TIMEOUT :: r.1, r.2)
    | (PopResult.SHUTDOWN, c1) => ([WEvent.colaApagada name], c1)

/-- Thread-lifecycle state of a `Worker<T>` object visible to `stop` and
the destructor: the atomic running flag and whether the std::thread is
still joinable. -/
structure WorkerState where
  running : Bool
  joinable : Bool
deriving DecidableEq

/-- Embedding of `Worker<T>::stop()` (worker.ipp): sets running to false
and joins the thread when it is joinable. The second component records
the `IWorkerAction` invocations performed by the call: there are none. -/
def Worker.stop (T : Type) (w : WorkerState) : WorkerState × List (WEvent T) :=
  let w1 : WorkerState := { w with running := false }
  let w2 : WorkerState := if w1.joinable then { w1 with joinable := false } else w1
  (w2, [])

/-- Embedding of the destructor `Worker<T>::~Worker()` (worker.ipp): calls
`stop()`, joins the thread when still joinable, then invokes
`action.onStop(name)`. The second component records the `IWorkerAction`
invocations performed by the destructor itself, in order. -/
def Worker.destruct (T : Type) (name : String) (w : WorkerState) : WorkerState × List (WEvent T) :=
  let s := Worker.stop T w
  let w2 : WorkerState := if s.1.joinable then { s.1 with joinable := false } else s.1
  (w2, s.2 ++ [WEvent.onStop name])

/-- All `IWorkerAction` invocations over one worker lifetime, in order:
those of the consume loop (the worker thread), then those of an optional
explicit `stop()` call, then those of the destructor. After the loop has
ended the thread has finished but is not yet joined. -/
def Worker.lifetimeEvents {T : Type} (name : String) (fuel : Nat) (c : Cola T) (callStop : Bool) : List (WEvent T) :=
  let loop := Worker.run name fuel c
  let w0 : WorkerState := { running := false, joinable := true }
  let afterStop := if callStop then Worker.stop T w0 else (w0, [])
  let d := Worker.destruct T name afterStop.1
  loop.1 ++ afterStop.2 ++ d.2

/-- On a live (not shutting down) queue with an empty buffer, the wait
predicate fails and pop times out, leaving the state unchanged. -/
lemma Cola.pop_nil_live {T : Type} (ms t : Nat) :
    Cola.pop (⟨[], ms, false⟩ : Cola T) t = (PopResult.TIMEOUT, ⟨[], ms, false⟩) := rfl

/-- On a live queue with a non-empty buffer, pop removes and returns the
front element. -/
lemma Cola.pop_cons_live {T : Type} (x : T) (xs : List T) (ms t : Nat) :
    Cola.pop (⟨x :: xs, ms, false⟩ : Cola T) t = (PopResult.OK x, ⟨xs, ms, false⟩) := rfl

/-- On a shutting-down queue, pop returns SHUTDOWN and leaves the state
unchanged, whatever the buffer holds. -/
lemma Cola.pop_shutting {T : Type} (buf : List T) (ms t : Nat) :
    Cola.pop (⟨buf, ms, true⟩ : Cola T) t = (PopResult.SHUTDOWN, ⟨buf, ms, true⟩) := rfl

/-- When the buffer has reached capacity, push drops the front element and
appends the new one. -/
lemma Cola.push_full {T : Type} (buf : List T) (ms : Nat) (sd : Bool) (x : T)
    (h : ms ≤ buf.length) :
    Cola.push (⟨buf, ms, sd⟩ : Cola T) x = ⟨buf.tail ++ [x], ms, sd⟩ := by
  simp [Cola.push, h]

/-- When the buffer is below capacity, push only appends. -/
lemma Cola.push_not_full {T : Type} (buf : List T) (ms : Nat) (sd : Bool) (x : T)
    (h : buf.length < ms) :
    Cola.push (⟨buf, ms, sd⟩ : Cola T) x = ⟨buf ++ [x], ms, sd⟩ := by
  simp [Cola.push, Nat.not_le.mpr h]

lemma Cola.pushAll_cons {T : Type} (c : Cola T) (x : T) (xs : List T) :
    c.pushAll (x :: xs) = (c.push x).pushAll xs := rfl

lemma Cola.pushAll_append {T : Type} (c : Cola T) (xs ys : List T) :
    c.pushAll (xs ++ ys) = (c.pushAll xs).pushAll ys := by
  simp [Cola.pushAll, List.foldl_append]

/-- As long as the pushed values fit beside the current buffer within
capacity, pushAll never takes the eviction branch and just appends. -/
lemma Cola.pushAll_no_evict {T : Type} (xs buf : List T) (ms : Nat) (sd : Bool)
    (h : buf.length + xs.length ≤ ms) :
    Cola.pushAll (⟨buf, ms, sd⟩ : Cola T) xs = ⟨buf ++ xs, ms, sd⟩ := by
  induction xs generalizing buf with
  | nil => simp [Cola.pushAll]
  | cons x xs ih =>
      have hlt : buf.length < ms := by
        simp only [List.length_cons] at h
        omega
      rw [Cola.pushAll_cons, Cola.push_not_full buf ms sd x hlt, ih]
      · simp
      · simp only [List.length_append, List.length_cons, List.length_nil] at h ⊢
        omega

/-- Popping as many times as the buffer holds, on a live queue, returns
exactly the buffer values in order and empties the queue. -/
lemma Cola.popN_drain {T : Type} (buf : List T) (ms t : Nat) :
    Cola.popN (⟨buf, ms, false⟩ : Cola T) t buf.length
      = (buf.map PopResult.OK, ⟨[], ms, false⟩) := by
  induction buf with
  | nil => rfl
  | cons x xs ih =>
      simp only [List.length_cons, Cola.popN, Cola.pop_cons_live, ih, List.map]

/-- No queue call changes the capacity field. -/
lemma Cola.step_max_size {T : Type} (c : Cola T) (op : Op T) :
    (c.step op).max_size = c.max_size := by
  rcases c with ⟨buf, ms, sd⟩
  cases op with
  | push dato =>
      show (Cola.push ⟨buf, ms, sd⟩ dato).max_size = ms
      by_cases hge : ms ≤ buf.length
      · rw [Cola.push_full buf ms sd dato hge]
      · rw [Cola.push_not_full buf ms sd dato (Nat.not_le.mp hge)]
  | pop t => cases sd <;> cases buf <;> rfl
  | shutdown => rfl

lemma Cola.run_cons {T : Type} (c : Cola T) (op : Op T) (ops : List (Op T)) :
    c.run (op :: ops) = (c.step op).run ops := rfl

lemma Cola.run_max_size {T : Type} (ops : List (Op T)) (c : Cola T) :
    (c.run ops).max_size = c.max_size := by
  induction ops generalizing c with
  | nil => rfl
  | cons op ops ih => rw [Cola.run_cons, ih, Cola.step_max_size]

/-- One queue call keeps the buffer within a positive capacity. -/
lemma Cola.step_size_le {T : Type} (c : Cola T) (op : Op T) (hm : 0 < c.max_size)
    (hb : c.buffer.length ≤ c.max_size) :
    (c.step op).buffer.length ≤ c.max_size := by
  rcases c with ⟨buf, ms, sd⟩
  simp only at hm hb
  cases op with
  | push dato =>
      show (Cola.push ⟨buf, ms, sd⟩ dato).buffer.length ≤ ms
      by_cases hge : ms ≤ buf.length
      · rw [Cola.push_full buf ms sd dato hge]
        simp only [List.length_append, List.length_tail, List.length_cons,
          List.length_nil]
        omega
      · rw [Cola.push_not_full buf ms sd dato (Nat.not_le.mp hge)]
        simp only [List.length_append, List.length_cons, List.length_nil]
        omega
  | pop t =>
      cases sd <;> cases buf <;>
        simp_all [Cola.step, Cola.pop_nil_live, Cola.pop_cons_live,
          Cola.pop_shutting] <;> omega
  | shutdown => exact hb

/-- A sequence of queue calls keeps the buffer within a positive
capacity. -/
lemma Cola.run_size_le {T : Type} (ops : List (Op T)) (c : Cola T) (hm : 0 < c.max_size)
    (hb : c.buffer.length ≤ c.max_size) :
    (c.run ops).buffer.length ≤ c.max_size := by
  induction ops generalizing c with
  | nil => exact hb
  | cons op ops ih =>
      rw [Cola.run_cons]
      have hms := Cola.step_max_size c op
      have h1 : 0 < (c.step op).max_size := by rw [hms]; exact hm
      have h2 : (c.step op).buffer.length ≤ (c.step op).max_size := by
        rw [hms]; exact Cola.step_size_le c op hm hb
      have := ih (c.step op) h1 h2
      rwa [hms] at this

/-- The tail of the first n + 1 naturals, with n + 1 appended, is the list
1, 2, ..., n + 1. -/
lemma tail_range_append (n : Nat) :
    (List.range (n + 1)).tail ++ [n + 1] = (List.range (n + 1)).map Nat.succ := by
  have h1 : (List.range (n + 1)).tail = (List.range n).map Nat.succ := by
    rw [List.range_succ_eq_map, List.tail_cons]
  have h2 : (List.range (n + 1)).map Nat.succ
      = (List.range n).map Nat.succ ++ [n + 1] := by
    rw [List.range_succ, List.map_append]
    rfl
  rw [h1, h2]

/-- The consume loop never invokes onStop: only the destructor does. -/
lemma Worker.run_no_onStop {T : Type} (name nm : String) (fuel : Nat) (c : Cola T) :
    WEvent.onStop nm ∉ (Worker.run name fuel c).1 := by
  induction fuel generalizing c with
  | zero => simp [Worker.run]
  | succ fuel ih =>
      rcases h : c.pop DEFAULT_WAIT_TIMEOUT with ⟨r, c1⟩
      cases r with
      | OK dato => simp [Worker.run, h, ih c1]
      | TIMEOUT => simp [Worker.run, h, ih c1]
      | SHUTDOWN => simp [Worker.run, h]

/-- Claim C1, counterexample. The claim says a pop on a shut-down,
non-empty queue removes and returns the head as OK. On the concrete queue
of capacity 5 holding the single item 7 after shutdown, pop instead
returns SHUTDOWN and leaves the queue untouched: in cola.ipp the
`shutting_down` test comes before the buffer is read. -/
theorem pop_after_shutdown_nonempty_counterexample :
    (((Cola.new Nat 5).push 7).shutdown).is_empty = false ∧
    ((((Cola.new Nat 5).push 7).shutdown).pop 5).1 = PopResult.SHUTDOWN ∧
    ((((Cola.new Nat 5).push 7).shutdown).pop 5).1 ≠ PopResult.OK 7 ∧
    ((((Cola.new Nat 5).push 7).shutdown).pop 5).2 = ((Cola.new Nat 5).push 7).shutdown := by
  decide

/-- Claim C1, amended: once shutdown has been requested, every pop call
reports SHUTDOWN, whether or not items remain, and the queue state is
unchanged; SHUTDOWN takes priority over item retrieval. -/
theorem pop_shutdown_priority_amended {T : Type} (c : Cola T) (t : Nat)
    (h : c.shutting_down = true) : c.pop t = (PopResult.SHUTDOWN, c) := by
  rcases c with ⟨buf, ms, sd⟩
  simp only at h
  subst h
  exact Cola.pop_shutting buf ms t

/-- Witness for the amended claim C1 at a concrete shut-down non-empty
queue. -/
theorem pop_shutdown_priority_amended_witness :
    (((Cola.new Nat 5).push 7).shutdown).shutting_down = true ∧
    (((Cola.new Nat 5).push 7).shutdown).pop 5
      = (PopResult.SHUTDOWN, ((Cola.new Nat 5).push 7).shutdown) :=
  ⟨by decide, pop_shutdown_priority_amended (((Cola.new Nat 5).push 7).shutdown) 5 (by decide)⟩

/-- Claim C2: starting from a queue built with positive capacity cap,
after any finite sequence of queue calls the reported size stays at most
cap; since every prefix of a sequence is itself a sequence, the bound
holds after every operation. -/
theorem size_le_capacity_invariant {T : Type} (cap : Nat) (ops : List (Op T))
    (hcap : 0 < cap) : ((Cola.new T cap).run ops).get_size ≤ cap := by
  exact Cola.run_size_le ops (Cola.new T cap) hcap (by simp [Cola.new])

/-- Witness for claim C2 on a concrete overfilling sequence. -/
theorem size_le_capacity_invariant_witness :
    0 < 2 ∧ ((Cola.new Nat 2).run
      [Op.push 0, Op.push 1, Op.push 2, Op.pop 5, Op.push 3]).get_size ≤ 2 :=
  ⟨by decide, size_le_capacity_invariant 2
    [Op.push 0, Op.push 1, Op.push 2, Op.pop 5, Op.push 3] (by decide)⟩

/-- Claim C3: pushing the cap + 1 sequential integers 0..cap into a fresh
queue of capacity cap ≥ 1 leaves the size equal to cap, and the next pop
returns OK 1: only the single oldest element 0 was evicted. -/
theorem eviction_order_law (cap : Nat) (hcap : 1 ≤ cap) :
    ((Cola.new Nat cap).pushAll (List.range (cap + 1))).get_size = cap ∧
    (((Cola.new Nat cap).pushAll (List.range (cap + 1))).pop 5).1 = PopResult.OK 1 := by
  obtain ⟨m, rfl⟩ : ∃ m, cap = m + 1 := ⟨cap - 1, by omega⟩
  have hsplit : (Cola.new Nat (m + 1)).pushAll (List.range (m + 1 + 1))
      = Cola.push ((Cola.new Nat (m + 1)).pushAll (List.range (m + 1))) (m + 1) := by
    rw [List.range_succ, Cola.pushAll_append]
    rfl
  have hfill : (Cola.new Nat (m + 1)).pushAll (List.range (m + 1))
      = ⟨List.range (m + 1), m + 1, false⟩ := by
    simpa using Cola.pushAll_no_evict (List.range (m + 1)) [] (m + 1) false (by simp)
  have hpush : Cola.push (⟨List.range (m + 1), m + 1, false⟩ : Cola Nat) (m + 1)
      = ⟨(List.range (m + 1)).tail ++ [m + 1], m + 1, false⟩ :=
    Cola.push_full _ _ _ _ (by simp)
  have hbuf : (Cola.new Nat (m + 1)).pushAll (List.range (m + 1 + 1))
      = ⟨(List.range (m + 1)).map Nat.succ, m + 1, false⟩ := by
    rw [hsplit, hfill, hpush, tail_range_append]
  refine ⟨?_, ?_⟩
  · rw [hbuf]
    simp [Cola.get_size]
  · rw [hbuf]
    have hhead : (List.range (m + 1)).map Nat.succ
        = 1 :: ((List.range m).map Nat.succ).map Nat.succ := by
      rw [List.range_succ_eq_map, List.map_cons, List.map_map]
    rw [hhead, Cola.pop_cons_live]

/-- Witness for claim C3 at capacity 5, scenario A of the specification. -/
theorem eviction_order_law_witness :
    1 ≤ 5 ∧ (((Cola.new Nat 5).pushAll (List.range (5 + 1))).get_size = 5 ∧
      (((Cola.new Nat 5).pushAll (List.range (5 + 1))).pop 5).1 = PopResult.OK 1) :=
  ⟨by decide, eviction_order_law 5 (by decide)⟩

/-- Claim C4, counterexample. The claim quantifies over any pushed
sequence; pushing the six values 0..5 into a default queue of capacity 5
then popping six times does not return those values in order (the first
pop yields OK 1, the value 0 was evicted and the sixth pop times out). -/
theorem fifo_law_counterexample :
    (((Cola.new Nat 5).pushAll [0, 1, 2, 3, 4, 5]).popN 5 6).1
        = [PopResult.OK 1, PopResult.OK 2, PopResult.OK 3, PopResult.OK 4,
            PopResult.OK 5, PopResult.TIMEOUT] ∧
    (((Cola.new Nat 5).pushAll [0, 1, 2, 3, 4, 5]).popN 5 6).1
        ≠ [0, 1, 2, 3, 4, 5].map PopResult.OK := by
  decide

/-- Claim C4, amended: for any sequence of at most capacity-many values
pushed into a fresh queue (no shutdown, no interleaved pops), popping the
same count yields exactly those values in order as OK results, and the
queue is empty afterwards. -/
theorem fifo_law_amended {T : Type} (cap t : Nat) (xs : List T)
    (h : xs.length ≤ cap) :
    (((Cola.new T cap).pushAll xs).popN t xs.length).1 = xs.map PopResult.OK ∧
    (((Cola.new T cap).pushAll xs).popN t xs.length).2.is_empty = true := by
  have hfill : (Cola.new T cap).pushAll xs = ⟨xs, cap, false⟩ := by
    simpa using Cola.pushAll_no_evict xs [] cap false (by simpa)
  rw [hfill, Cola.popN_drain]
  exact ⟨rfl, rfl⟩

/-- Witness for the amended claim C4: scenario B of the specification,
push 10 then 20, pop both in order, queue empty afterwards. -/
theorem fifo_law_amended_witness :
    ([10, 20] : List Nat).length ≤ 5 ∧
    ((((Cola.new Nat 5).pushAll [10, 20]).popN 5 ([10, 20] : List Nat).length).1
        = [10, 20].map PopResult.OK ∧
      (((Cola.new Nat 5).pushAll [10, 20]).popN 5 ([10, 20] : List Nat).length).2.is_empty
        = true) :=
  ⟨by decide, fifo_law_amended 5 5 [10, 20] (by decide)⟩

/-- Claim C5: each iteration of the consume loop dispatches the pop result
exactly as the switch in worker.ipp does: OK invokes trabajo with the
worker name and the item and the loop continues; TIMEOUT invokes colaVacia
with the name and the fixed timeout and the loop continues; SHUTDOWN
invokes colaApagada with the name and the loop terminates with no further
invocation. -/
theorem worker_dispatch {T : Type} (name : String) (fuel : Nat) (c : Cola T) :
    (∀ dato c1, c.pop DEFAULT_WAIT_TIMEOUT = (PopResult.OK dato, c1) →
      Worker.run name (Nat.succ fuel) c
        = (WEvent.trabajo name dato :: (Worker.run name fuel c1).1,
            (Worker.run name fuel c1).2)) ∧
    (∀ c1, c.pop DEFAULT_WAIT_TIMEOUT = (PopResult.TIMEOUT, c1) →
      Worker.run name (Nat.succ fuel) c
        = (WEvent.colaVacia name DEFAULT_WAIT_TIMEOUT :: (Worker.run name fuel c1).1,
            (Worker.run name fuel c1).2)) ∧
    (∀ c1, c.pop DEFAULT_WAIT_TIMEOUT = (PopResult.SHUTDOWN, c1) →
      Worker.run name (Nat.succ fuel) c = ([WEvent.colaApagada name], c1)) := by
  refine ⟨fun dato c1 h => ?_, fun c1 h => ?_, fun c1 h => ?_⟩ <;>
    simp [Worker.run, h]

/-- Witness for claim C5 at one concrete queue per pop outcome. -/
theorem worker_dispatch_witness :
    Worker.run "W" (Nat.succ 0) ((Cola.new Nat 5).push 9)
      = (WEvent.trabajo "W" 9 :: (Worker.run "W" 0 (Cola.new Nat 5)).1,
          (Worker.run "W" 0 (Cola.new Nat 5)).2) ∧
    Worker.run "W" (Nat.succ 0) (Cola.new Nat 5)
      = (WEvent.colaVacia "W" DEFAULT_WAIT_TIMEOUT :: (Worker.run "W" 0 (Cola.new Nat 5)).1,
          (Worker.run "W" 0 (Cola.new Nat 5)).2) ∧
    Worker.run "W" (Nat.succ 0) ((Cola.new Nat 5).shutdown)
      = ([WEvent.colaApagada "W"], (Cola.new Nat 5).shutdown) :=
  ⟨(worker_dispatch "W" 0 ((Cola.new Nat 5).push 9)).1 9 (Cola.new Nat 5) (by decide),
   (worker_dispatch "W" 0 (Cola.new Nat 5)).2.1 (Cola.new Nat 5) (by decide),
   (worker_dispatch "W" 0 ((Cola.new Nat 5).shutdown)).2.2 ((Cola.new Nat 5).shutdown)
     (by decide)⟩

/-- Claim C6, counterexample. Take the worker named Worker whose consume
loop exits normally through a SHUTDOWN result (first conjunct), after
which the caller invokes stop(). The claim says onStop has already fired
by the time stop() returns; but the invocations recorded up to that point
(the loop events followed by the events of the stop() call) contain no
onStop: in worker.ipp stop() only clears the running flag and joins, and
onStop is invoked solely by the destructor. -/
theorem onStop_not_fired_when_stop_returns_counterexample :
    (Worker.run "Worker" 1 ((Cola.new Nat 5).shutdown)).1
        = [WEvent.colaApagada "Worker"] ∧
    WEvent.onStop "Worker" ∉
      ((Worker.run "Worker" 1 ((Cola.new Nat 5).shutdown)).1
        ++ (Worker.stop Nat { running := false, joinable := true }).2) := by
  decide

/-- Claim C6, amended: over a worker lifetime whose consume loop exits
normally (through SHUTDOWN or because the running flag was cleared), with
or without an explicit stop() call, onStop fires exactly once, as the
final act performed by the destructor before the worker is destroyed; it
has not yet fired when stop() returns, and it never fires twice. -/
theorem onStop_exactly_once_at_destruction {T : Type} (name : String) (fuel : Nat)
    (c : Cola T) (callStop : Bool) :
    Worker.lifetimeEvents name fuel c callStop
        = (Worker.run name fuel c).1 ++ [WEvent.onStop name] ∧
    WEvent.onStop name ∉ (Worker.run name fuel c).1 := by
  constructor
  · cases callStop <;> simp [Worker.lifetimeEvents, Worker.stop, Worker.destruct]
  · exact Worker.run_no_onStop name name fuel c

/-- Claim C7: shutdown is idempotent: a second shutdown call leaves the
queue state identical, hence every subsequent call sequence ends in the
same state. -/
theorem shutdown_idempotent {T : Type} (c : Cola T) :
    (c.shutdown).shutdown = c.shutdown ∧
    ∀ ops : List (Op T), ((c.shutdown).shutdown).run ops = (c.shutdown).run ops :=
  ⟨rfl, fun _ => rfl⟩

/-- Claim C8: shutdown only sets the shutting-down flag: the buffer, its
order, and the capacity are exactly those before the call. -/
theorem shutdown_frame {T : Type} (c : Cola T) :
    (c.shutdown).buffer = c.buffer ∧ (c.shutdown).max_size = c.max_size :=
  ⟨rfl, rfl⟩

/-- Claim C10: in any state reachable from a constructor call with
capacity at least 1, when the eviction guard of push holds (the buffer
length has reached the capacity) the buffer is non-empty, so pop_front in
the eviction branch never acts on an empty buffer. The hypothesis is
needed: the constructor accepts capacity 0, and on the fresh capacity-0
queue the eviction guard already holds on an empty buffer (second
conjunct), so the very first push would take the eviction branch there. -/
theorem push_eviction_guard {T : Type} (cap : Nat) (ops : List (Op T))
    (hcap : 1 ≤ cap)
    (hfull : ((Cola.new T cap).run ops).buffer.length
      ≥ ((Cola.new T cap).run ops).max_size) :
    ((Cola.new T cap).run ops).buffer ≠ [] ∧
    ((Cola.new T 0).buffer.length ≥ (Cola.new T 0).max_size
      ∧ (Cola.new T 0).buffer = []) := by
  refine ⟨?_, Nat.le_refl 0, rfl⟩
  have hms : ((Cola.new T cap).run ops).max_size = cap :=
    Cola.run_max_size ops (Cola.new T cap)
  rw [hms] at hfull
  have : 0 < ((Cola.new T cap).run ops).buffer.length := by omega
  exact List.ne_nil_of_length_pos this

/-- Witness for claim C10: capacity 1 and a single push reach a state
where the eviction guard holds and the buffer is non-empty. -/
theorem push_eviction_guard_witness :
    1 ≤ 1 ∧
    ((Cola.new Nat 1).run [Op.push 0]).buffer.length
        ≥ ((Cola.new Nat 1).run [Op.push 0]).max_size ∧
    (((Cola.new Nat 1).run [Op.push 0]).buffer ≠ [] ∧
      ((Cola.new Nat 0).buffer.length ≥ (Cola.new Nat 0).max_size
        ∧ (Cola.new Nat 0).buffer = [])) :=
  ⟨by decide, by decide,
    push_eviction_guard 1 [Op.push 0] (by decide) (by decide)⟩
